import Mathlib

/-!
# Verification of the client-side scripting layer

A shallow embedding, in Lean 4, of the DOM-orchestration code of the
repository (onboarding tour, feature accordion, auto-rotating displays,
copy-to-clipboard, newsletter form, admin tab fix, notification badge,
cookie helper), together with theorems settling the specification claims.

DOM elements are modelled by records carrying the fields the scripts read
and write (class lists, labels, style rectangles); `document.querySelector`
lookups are modelled by explicit environment functions; asynchronous
outcomes (clipboard writes, fetches) are modelled by explicit result values
passed to the handler.  JavaScript numbers used for geometry are modelled
by `ℚ`; array indices that the code compares against `0` are modelled by
`Int` where the source can receive a negative index.
-/

/-- JavaScript `a || b` on an optional string attribute: `undefined` and the
empty string are falsy. -/
def jsOrStr (a : Option String) (b : String) : String :=
  match a with
  | some s => if s = "" then b else s
  | none => b

/-- `classList.add c`: a DOMTokenList adds the token only if absent. -/
def classAdd (cs : List String) (c : String) : List String :=
  if c ∈ cs then cs else cs ++ [c]

/-- `classList.remove c`: removes the token. -/
def classRemove (cs : List String) (c : String) : List String :=
  cs.filter (fun x => x != c)

/-! ## Onboarding tour (`static/js/onboarding-tour.js`) -/

/-- A bounding rectangle as returned by `getBoundingClientRect()`. -/
structure Rect where
  top : ℚ
  left : ℚ
  width : ℚ
  height : ℚ
deriving DecidableEq

/-- `rect.right = rect.left + rect.width` for a client rect. -/
def Rect.right (r : Rect) : ℚ := r.left + r.width

/-- `rect.bottom = rect.top + rect.height` for a client rect. -/
def Rect.bottom (r : Rect) : ℚ := r.top + r.height

/-- A tour step object, with the fields the repository's step definitions
carry (`title`, `message`, `target`, `scrollTo`).  The optional `onShow`
hook is not modelled: the single step that defines one only toggles a
highlight class on a nav element, outside every field of the modelled
state. -/
structure TourStep where
  title : String
  message : String
  target : String
  scrollTo : Bool
deriving DecidableEq

instance : Inhabited TourStep := ⟨⟨"", "", "", true⟩⟩

/-- The browser context read by `showStep`/`highlightElement`:
`query` is `document.querySelector` returning the element's bounding rect
(`none` when no element matches), `tooltipRect` is the tooltip's own
bounding rect, and the viewport dimensions are `window.innerWidth/Height`. -/
structure TourEnv where
  query : String → Option Rect
  tooltipRect : Rect
  viewportWidth : ℚ
  viewportHeight : ℚ

/-- The mutable UI state that `OnboardingTour.showStep` and
`highlightElement` write: the current step index, the tooltip's
title/message text, the progress indicator, the two button states, the
spotlight's style rectangle and the tooltip's style position. -/
structure TourState where
  currentStep : Int
  tooltipTitle : String
  tooltipMessage : String
  progressFillPct : ℚ
  stepCurrentText : String
  prevDisabled : Bool
  nextLabel : String
  spotlight : Rect
  tooltipTop : ℚ
  tooltipLeft : ℚ
deriving DecidableEq

/-- `OnboardingTour.positionTooltip(targetRect)`: smart positioning that
tries right, then left, then below, then above; returns `(top, left)`. -/
def positionTooltip (env : TourEnv) (targetRect : Rect) : ℚ × ℚ :=
  let tooltipRect := env.tooltipRect
  let padding : ℚ := 20
  if targetRect.right + tooltipRect.width + padding < env.viewportWidth then
    (targetRect.top, targetRect.right + padding)
  else if targetRect.left - tooltipRect.width - padding > 0 then
    (targetRect.top, targetRect.left - tooltipRect.width - padding)
  else if targetRect.bottom + tooltipRect.height + padding < env.viewportHeight then
    (targetRect.bottom + padding,
     max padding (min targetRect.left (env.viewportWidth - tooltipRect.width - padding)))
  else
    (targetRect.top - tooltipRect.height - padding,
     max padding (min targetRect.left (env.viewportWidth - tooltipRect.width - padding)))

/-- `OnboardingTour.highlightElement(selector)`: if the selector matches no
element it only logs a warning and returns; otherwise it positions the
spotlight around the element's rect and repositions the tooltip. -/
def highlightElement (env : TourEnv) (s : TourState) (selector : String) : TourState :=
  match env.query selector with
  | none => s
  | some rect =>
    let pos := positionTooltip env rect
    { s with
      spotlight := ⟨rect.top - 8, rect.left - 8, rect.width + 16, rect.height + 16⟩,
      tooltipTop := pos.1,
      tooltipLeft := pos.2 }

/-- `OnboardingTour.showStep(index)`: guarded by
`index < 0 || index >= this.steps.length`; otherwise sets `currentStep`,
the tooltip content, the progress indicator (when `showProgress`), the
button states, and calls `highlightElement` on the step's target.
(`scrollToElement` touches only the scroll position, and the one `onShow`
hook among the repository's steps only a nav element's highlight class;
neither is part of the modelled state.) -/
def showStep (env : TourEnv) (showProgress : Bool) (steps : List TourStep)
    (s : TourState) (index : Int) : TourState :=
  if index < 0 ∨ (steps.length : Int) ≤ index then s
  else
    let step := steps.getD index.toNat default
    let s1 := { s with
      currentStep := index,
      tooltipTitle := step.title,
      tooltipMessage := step.message }
    let s2 := if showProgress then
        { s1 with
          progressFillPct := (((index : ℚ) + 1) / (steps.length : ℚ)) * 100,
          stepCurrentText := toString (index + 1) }
      else s1
    let s3 := { s2 with
      prevDisabled := index == 0,
      nextLabel := if index == (steps.length : Int) - 1 then "Finish" else "Next" }
    highlightElement env s3 step.target

/-- `OnboardingTour.nextStep()`: advances while not on the last step,
otherwise invokes `completeTour` (which shows the completion modal, posts
to the backend and destroys the tour, but never changes `currentStep`).
The returned flag records whether `completeTour` was invoked. -/
def nextStep (env : TourEnv) (showProgress : Bool) (steps : List TourStep)
    (s : TourState) : TourState × Bool :=
  if s.currentStep < (steps.length : Int) - 1 then
    (showStep env showProgress steps s (s.currentStep + 1), false)
  else
    (s, true)

/-- `OnboardingTour.previousStep()`: steps back while not on step 0. -/
def previousStep (env : TourEnv) (showProgress : Bool) (steps : List TourStep)
    (s : TourState) : TourState :=
  if s.currentStep > 0 then
    showStep env showProgress steps s (s.currentStep - 1)
  else
    s

/-- A user navigation action on the tour. -/
inductive TourAction
  | next
  | prev
deriving DecidableEq

/-- Run a sequence of next/previous actions against the tour. -/
def runTour (env : TourEnv) (showProgress : Bool) (steps : List TourStep)
    (s : TourState) : List TourAction → TourState
  | [] => s
  | a :: rest =>
    let s1 := match a with
      | TourAction.next => (nextStep env showProgress steps s).1
      | TourAction.prev => previousStep env showProgress steps s
    runTour env showProgress steps s1 rest

/-! ## Feature accordion (`static/js/main.js`, `setActivePanel` and the
feature-button click handler) -/

/-- A feature accordion button: its `data-feature` value and class list. -/
structure FeatureButton where
  feature : String
  classes : List String
deriving DecidableEq

instance : Inhabited FeatureButton := ⟨⟨"", []⟩⟩

/-- A feature panel: its `data-feature-panel` value and class list. -/
structure FeaturePanel where
  featurePanel : String
  classes : List String
deriving DecidableEq

/-- `setActivePanel(slug)`: returns early when the panel list is empty,
otherwise adds `is-active` exactly to the panels whose
`data-feature-panel` equals the slug and removes it from the others. -/
def setActivePanel (panels : List FeaturePanel) (slug : String) : List FeaturePanel :=
  if panels.length = 0 then panels
  else panels.map (fun p =>
    if p.featurePanel = slug then { p with classes := classAdd p.classes "is-active" }
    else { p with classes := classRemove p.classes "is-active" })

/-- The first half of the click handler's button loop:
`buttons.forEach((b) => b.classList.remove('is-active'))`. -/
def clearActiveButtons (buttons : List FeatureButton) : List FeatureButton :=
  buttons.map (fun b => { b with classes := classRemove b.classes "is-active" })

/-- The button half of the feature-button click handler: every button in
the accordion loses `is-active`, then the clicked button (at index `i`)
gains it. -/
def featureButtonsAfterClick (buttons : List FeatureButton) (i : Nat) : List FeatureButton :=
  match (clearActiveButtons buttons).get? i with
  | some b => (clearActiveButtons buttons).set i
      { b with classes := classAdd b.classes "is-active" }
  | none => clearActiveButtons buttons

/-- The feature-button click handler: clears and re-adds `is-active` on the
buttons, then calls `setActivePanel` with the clicked button's
`data-feature` value.  (`updateAccent` only restyles the separate
`.accent-bar` element and touches neither buttons nor panels.) -/
def featureClick (buttons : List FeatureButton) (i : Nat) (panels : List FeaturePanel) :
    List FeatureButton × List FeaturePanel :=
  (featureButtonsAfterClick buttons i,
   setActivePanel panels (buttons.getD i default).feature)

/-! ## Auto-rotating journey stages and testimonials (`static/js/main.js`) -/

/-- The journey-stage rotator state: per-stage `is-active` presence and the
captured `stageIndex` variable. -/
structure JourneyState where
  stages : List Bool
  stageIndex : Nat
deriving DecidableEq

/-- `rotateStages()`: toggles `is-active` on exactly the stage at
`stageIndex`, then advances `stageIndex` modulo the stage count. -/
def rotateStages (s : JourneyState) : JourneyState :=
  { stages := s.stages.mapIdx (fun idx _ => idx == s.stageIndex),
    stageIndex := (s.stageIndex + 1) % s.stages.length }

/-- The testimonial carousel state: the captured `activeIndex` and the
per-button / per-panel `is-active` presence. -/
structure TestimonialState where
  activeIndex : Nat
  buttons : List Bool
  panels : List Bool
deriving DecidableEq

/-- `setTestimonial(index)`: records the index and toggles `is-active` on
exactly the button and panel at that index. -/
def setTestimonial (s : TestimonialState) (index : Nat) : TestimonialState :=
  { activeIndex := index,
    buttons := s.buttons.mapIdx (fun idx _ => idx == index),
    panels := s.panels.mapIdx (fun idx _ => idx == index) }

/-- The testimonial auto-advance timer body:
`setTestimonial((activeIndex + 1) % testimonialButtons.length)`. -/
def testimonialTick (s : TestimonialState) : TestimonialState :=
  setTestimonial s ((s.activeIndex + 1) % s.buttons.length)

/-! ## Copy-to-clipboard handler (`static/js/main.js`, `.copy-trigger`) -/

/-- The three labels captured when the copy button is wired up. -/
structure CopyLabels where
  defaultLabel : String
  successLabel : String
  fallbackLabel : String
deriving DecidableEq

/-- Label initialisation for a copy button: `dataset.copyLabel`,
`dataset.copySuccess`, `dataset.copyFallback` with their `||` fallbacks. -/
def copySetup (copyLabelAttr copySuccessAttr copyFallbackAttr : Option String)
    (textContent : String) : CopyLabels :=
  { defaultLabel := jsOrStr copyLabelAttr textContent.trim,
    successLabel := jsOrStr copySuccessAttr "Copied!",
    fallbackLabel := jsOrStr copyFallbackAttr "Press ⌘C / Ctrl+C" }

/-- Outcome of `navigator.clipboard.writeText`. -/
inductive ClipboardWrite
  | succeeds
  | fails
deriving DecidableEq

/-- The copy-trigger click handler.  `target` is the element found by
`document.querySelector(btn.dataset.copyTarget)` (its text content), and
`clip` the clipboard write's outcome; the result is the pair of the button
label right after the handler runs and the label after the pending
`setTimeout` restores it.  The write is wrapped in try/catch, so both
outcomes produce a normal return. -/
def copyClick (labels : CopyLabels) (target : Option String) (clip : ClipboardWrite)
    (currentLabel : String) : String × String :=
  match target with
  | none => (currentLabel, currentLabel)
  | some _ =>
    match clip with
    | ClipboardWrite.succeeds => (labels.successLabel, labels.defaultLabel)
    | ClipboardWrite.fails => (labels.fallbackLabel, labels.defaultLabel)

/-! ## Newsletter subscription form (hiring-console script) -/

/-- The parsed JSON body of the subscription response: `success`,
`message`, and the optional `error` string. -/
structure NewsletterResponse where
  success : Bool
  message : String
  error : Option String
deriving DecidableEq

/-- Outcome of `fetch` + `response.json()`: either one of them throws, or
a parsed response is produced. -/
inductive NewsletterFetch
  | connectionError
  | responds (data : NewsletterResponse)
deriving DecidableEq

/-- The UI state the newsletter submit handler writes: the message
element's text/visibility/colour, the form's visibility, and the submit
button's disabled flag and label. -/
structure NewsletterUI where
  messageText : String
  messageShown : Bool
  messageIsSuccess : Bool
  formHidden : Bool
  btnDisabled : Bool
  btnLabel : String
deriving DecidableEq

/-- `showMessage(text, isSuccess)` from the newsletter handler. -/
def showNewsletterMessage (ui : NewsletterUI) (text : String) (isSuccess : Bool) :
    NewsletterUI :=
  { ui with messageText := text, messageShown := true, messageIsSuccess := isSuccess }

/-- The newsletter form submit handler (modelled on a page where the form,
its submit button and its message element exist).  `emailField` is
`emailInput?.value` (`none` when the input is missing); the returned flag
records whether the `fetch` request was performed.  The empty-email guard
answers before any request; the `try/catch/finally` confines a thrown
fetch or JSON parse to the connection-error message, and the `finally`
block re-enables and relabels the button on every request path.
This definition is the pre-request disabling of the submit button. -/
def newsletterDisable (ui : NewsletterUI) : NewsletterUI :=
  { ui with btnDisabled := true, btnLabel := "Subscribing..." }

/-- The `try`/`catch` body around `fetch` and `response.json()`. -/
def newsletterTry (doFetch : NewsletterFetch) (ui : NewsletterUI) : NewsletterUI :=
  match doFetch with
  | NewsletterFetch.connectionError =>
    showNewsletterMessage ui "Connection error. Please try again." false
  | NewsletterFetch.responds data =>
    if data.success then
      { showNewsletterMessage ui data.message true with formHidden := true }
    else
      showNewsletterMessage ui
        (jsOrStr data.error "Something went wrong. Please try again.") false

/-- The `finally` block: re-enable and relabel the submit button. -/
def newsletterFinally (ui : NewsletterUI) : NewsletterUI :=
  { ui with btnDisabled := false, btnLabel := "Subscribe" }

/-- The newsletter submit handler: empty-email guard, then disable,
`try`/`catch`, `finally`; the flag records whether the request ran. -/
def newsletterSubmit (emailField : Option String) (doFetch : NewsletterFetch)
    (ui : NewsletterUI) : NewsletterUI × Bool :=
  if emailField.map String.trim = none ∨ emailField.map String.trim = some "" then
    (showNewsletterMessage ui "Please enter your email address." false, false)
  else
    (newsletterFinally (newsletterTry doFetch (newsletterDisable ui)), true)

/-! ## Admin tab fix (`static/jazzmin/js/admin_tabs_fix.js`) -/

/-- The DOM slice the tab click handler touches: the clicked link's `href`
attribute, the class lists of the elements of its enclosing `ul` (with the
clicked link at `clickedIdx`), whether a `.tab-content` element exists,
the class lists of the `.tab-pane` elements inside it, and the pane index
matched by `document.querySelector(href)` (`none` when nothing matches). -/
structure TabsDom where
  href : Option String
  ulElems : List (List String)
  clickedIdx : Nat
  hasTabContent : Bool
  panes : List (List String)
  hrefTarget : Option Nat
deriving DecidableEq

/-- `allLinks.forEach((l) => l.classList.remove('active'))` applied to one
`ul` element: only elements that carry `nav-link` are in `allLinks`. -/
def stripNavActive (cs : List String) : List String :=
  if "nav-link" ∈ cs then classRemove cs "active" else cs

/-- Deactivation pass over the enclosing `ul`. -/
def deactivateNavLinks (ulElems : List (List String)) : List (List String) :=
  ulElems.map stripNavActive

/-- `this.classList.add('active')` on the clicked link at index `i`. -/
def activateClicked (links : List (List String)) (i : Nat) : List (List String) :=
  match links.get? i with
  | some cs => links.set i (classAdd cs "active")
  | none => links

/-- `p.classList.remove('active', 'show')` on one pane. -/
def stripPane (cs : List String) : List String :=
  classRemove (classRemove cs "active") "show"

/-- Deactivation pass over the panes of `.tab-content`. -/
def deactivatePanes (panes : List (List String)) : List (List String) :=
  panes.map stripPane

/-- `pane.classList.add('active', 'show')` on the pane matched by
`document.querySelector(targetId)`, when one matched. -/
def activatePane (panes : List (List String)) (k : Option Nat) : List (List String) :=
  match k with
  | some k =>
    match panes.get? k with
    | some cs => panes.set k (classAdd (classAdd cs "active") "show")
    | none => panes
  | none => panes

/-- The tab-link click handler: the JS guard `!targetId || targetId === '#'`
is a no-op when the `href` attribute is absent (null), empty (falsy), or
equal to `'#'`, and likewise when no `.tab-content` exists; otherwise
the handler deactivates every
`.nav-link` in the enclosing `ul` and every `.tab-pane`, then activates
the clicked link and (when matched) the target pane, and pushes the hash
onto the history.  The returned flag records the `history.pushState`
call. -/
def adminTabClick (d : TabsDom) : TabsDom × Bool :=
  match d.href with
  | none => (d, false)
  | some t =>
    if t = "" ∨ t = "#" then (d, false)
    else if ¬ d.hasTabContent then (d, false)
    else
      ({ d with
          ulElems := activateClicked (deactivateNavLinks d.ulElems) d.clickedIdx,
          panes := activatePane (deactivatePanes d.panes) d.hrefTarget }, true)

/-! ## Notification dropdown (hiring-console script) -/

/-- A mock notification record. -/
structure JsNotification where
  id : Int
  title : String
  message : String
  time : String
  unread : Bool
  link : String
deriving DecidableEq

/-- The badge UI: the badge's text, whether it is displayed
(`display: flex` vs `none`), and the toggle's `has-notifications` class. -/
structure NotifUI where
  badgeText : String
  badgeVisible : Bool
  toggleHasNotifications : Bool
deriving DecidableEq

/-- `updateBadgeCount()`: shows the unread count when positive, hides the
badge (leaving its stale text) when zero. -/
def updateBadgeCount (notifications : List JsNotification) (ui : NotifUI) : NotifUI :=
  let unreadCount := (notifications.filter (fun n => n.unread)).length
  if unreadCount > 0 then
    { badgeText := toString unreadCount, badgeVisible := true,
      toggleHasNotifications := true }
  else
    { ui with badgeVisible := false, toggleHasNotifications := false }

/-- `notifications.find(n => n.id === id)` followed by
`notif.unread = false`: in-place mutation of the first matching record. -/
def markFirstRead : List JsNotification → Int → List JsNotification
  | [], _ => []
  | n :: rest, i =>
    if n.id == i then { n with unread := false } :: rest
    else n :: markFirstRead rest i

/-- The notification-item click handler for the item with `data-id = i`
(navigation aside): marks the first matching notification read and
refreshes the badge; no match means no change. -/
def notifItemClick (notifications : List JsNotification) (ui : NotifUI) (i : Int) :
    List JsNotification × NotifUI :=
  match notifications.find? (fun n => n.id == i) with
  | some _ =>
    let ns := markFirstRead notifications i
    (ns, updateBadgeCount ns ui)
  | none => (notifications, ui)

/-- The mark-all-read click handler: sets `unread = false` on every
notification and refreshes the badge. -/
def markAllReadClick (notifications : List JsNotification) (ui : NotifUI) :
    List JsNotification × NotifUI :=
  let ns := notifications.map (fun n => { n with unread := false })
  (ns, updateBadgeCount ns ui)

/-! ## Cookie helper (`OnboardingTour.getCookie`) -/

/-- The `for` loop of `getCookie`: first `';'`-separated entry whose
trimmed text starts with `name + '='` wins, later entries are never
inspected. -/
def getCookieLoop (decode : String → String) (name : String) :
    List String → Option String
  | [] => none
  | c :: rest =>
    if (c.trim).take (name.length + 1) = name ++ "=" then
      some (decode ((c.trim).drop (name.length + 1)))
    else getCookieLoop decode name rest

/-- `OnboardingTour.getCookie(name)`: `decode` stands for the browser's
`decodeURIComponent`, `documentCookie` for `document.cookie`. -/
def getCookie (decode : String → String) (documentCookie : String) (name : String) :
    Option String :=
  if documentCookie ≠ "" then
    getCookieLoop decode name (documentCookie.splitOn ";")
  else none

/-- The cookie lookup as the specification states it: the URI-decoded
value of the first `';'`-separated entry of `document.cookie` whose
trimmed text begins with `name` followed by `'='` (a string begins with
`p` exactly when its first `p.length` characters are `p`), and `none`
when `document.cookie` is empty or no entry has that prefix. -/
def getCookieSpec (decode : String → String) (documentCookie : String) (name : String) :
    Option String :=
  if documentCookie = "" then none
  else
    ((documentCookie.splitOn ";").find?
        (fun c => c.trim.take (name ++ "=").length == name ++ "=")).map
      (fun c => decode (c.trim.drop (name ++ "=").length))

/-! ## Tour step definitions (`buildTourSteps` and the step lists) -/

/-- The module-level `onboardingSteps` array of the hiring-console tour
step definitions. -/
def onboardingSteps : List TourStep :=
  [ { title := "Welcome to Evalon!",
      message := "Let\x27s take a quick tour of your hiring dashboard. We\x27ll show you how to create positions, invite candidates, and make data-driven hiring decisions.",
      target := ".db-header",
      scrollTo := true },
    { title := "Your Vacancy Page",
      message := "This is your public careers page. Share this link with candidates — anyone who applies will automatically appear in your Candidates list.",
      target := ".db-vacancy-bar",
      scrollTo := true },
    { title := "Hiring Metrics",
      message := "Track completion rates, average duration, and candidate scores at a glance. These update automatically as candidates complete assessments.",
      target := ".db-metrics",
      scrollTo := true },
    { title := "Jobs & Positions",
      message := "Create and manage your open positions here. Each position can have its own assessment pipeline and AI screening settings.",
      target := ".nav-item[href*=\x27projects\x27]",
      scrollTo := false },
    { title := "Your Candidates",
      message := "All applications land here. You can filter by position, status, or AI screening score. Click any candidate to see full details and take action.",
      target := ".nav-item[href*=\x27applications\x27]",
      scrollTo := false },
    { title := "You\x27re All Set!",
      message := "Start by creating your first position. You can always restart this tour from Settings.",
      target := ".db-header-cta",
      scrollTo := true } ]

/-- The `aiScreeningStep` object inserted for Pro/Enterprise plans. -/
def aiScreeningStep : TourStep :=
  { title := "AI Screening",
    message := "Your plan includes AI-powered candidate screening. When creating a position, toggle \x27Enable AI Screening\x27 to automatically score and filter applicants.",
    target := ".nav-item[href*=\x27projects\x27]",
    scrollTo := false }

/-- `buildTourSteps(userRole, canUseAI)`: spreads `onboardingSteps` into a
fresh array, `splice(4, 0, aiScreeningStep)` when the plan allows AI, and
filters out the Jobs and AI steps for viewers.  All operations act on the
fresh copy, never on the module-level array.
This definition covers the spread plus `splice(4, 0, aiScreeningStep)`. -/
def spliceAISteps (canUseAI : Bool) : List TourStep :=
  if canUseAI then onboardingSteps.take 4 ++ [aiScreeningStep] ++ onboardingSteps.drop 4
  else onboardingSteps

/-- `buildTourSteps(userRole, canUseAI)`: the splice result, with the Jobs
and AI steps filtered out for the `viewer` role. -/
def buildTourSteps (userRole : String) (canUseAI : Bool) : List TourStep :=
  if userRole = "viewer" then
    (spliceAISteps canUseAI).filter (fun step =>
      step.title != "Jobs & Positions" && step.title != "AI Screening")
  else spliceAISteps canUseAI

/-! ## Concrete fixtures used by the witness theorems -/

/-- A concrete browser environment in which no selector matches. -/
def envNone : TourEnv :=
  { query := fun _ => none,
    tooltipRect := ⟨0, 0, 0, 0⟩,
    viewportWidth := 1024,
    viewportHeight := 768 }

/-- A concrete initial tour UI state. -/
def tourState0 : TourState :=
  { currentStep := 0,
    tooltipTitle := "",
    tooltipMessage := "",
    progressFillPct := 0,
    stepCurrentText := "",
    prevDisabled := false,
    nextLabel := "",
    spotlight := ⟨0, 0, 0, 0⟩,
    tooltipTop := 0,
    tooltipLeft := 0 }

/-- A concrete initial newsletter UI state. -/
def newsUI0 : NewsletterUI :=
  { messageText := "",
    messageShown := false,
    messageIsSuccess := false,
    formHidden := false,
    btnDisabled := false,
    btnLabel := "Subscribe" }

/-- The mock notification data of the hiring-console script. -/
def notifsFixture : List JsNotification :=
  [ { id := 1,
      title := "Assessment Completed",
      message := "John Doe completed the Digital Marketing Assessment",
      time := "5 minutes ago",
      unread := true,
      link := "/clients/dashboard/assessments/marketing/" },
    { id := 2,
      title := "New Invite Response",
      message := "Jane Smith started the Product Management Assessment",
      time := "1 hour ago",
      unread := true,
      link := "/clients/dashboard/assessments/product/" },
    { id := 3,
      title := "Project Updated",
      message := "Senior Developer role has 3 new candidates",
      time := "3 hours ago",
      unread := false,
      link := "/clients/dashboard/projects/" } ]

/-- A concrete initial badge UI state. -/
def notifUI0 : NotifUI :=
  { badgeText := "", badgeVisible := false, toggleHasNotifications := false }

/-- A concrete tabs DOM: two links in the `ul`, two panes. -/
def tabsFixture : TabsDom :=
  { href := some "#tab-two",
    ulElems := [["nav-link", "active"], ["nav-link"]],
    clickedIdx := 1,
    hasTabContent := true,
    panes := [["tab-pane", "active", "show"], ["tab-pane"]],
    hrefTarget := some 1 }

/-- The tabs DOM with a present-but-empty `href` attribute. -/
def tabsEmptyHref : TabsDom :=
  { tabsFixture with href := some "" }

/-- A concrete pair of feature accordion buttons. -/
def demoButtons : List FeatureButton :=
  [⟨"alpha", ["accordion-item", "is-active"]⟩, ⟨"beta", ["accordion-item"]⟩]

/-- A concrete pair of feature panels. -/
def demoPanels : List FeaturePanel :=
  [⟨"alpha", ["is-active"]⟩, ⟨"beta", []⟩]

/-! ## Theorems -/

/-- `highlightElement` never changes the current step index. -/
theorem highlightElement_currentStep (env : TourEnv) (s : TourState) (sel : String) :
    (highlightElement env s sel).currentStep = s.currentStep := by
  unfold highlightElement
  cases h : env.query sel <;> simp

/-- `showStep` with an out-of-bounds index is a complete no-op. -/
theorem showStep_out_of_bounds (env : TourEnv) (sp : Bool) (steps : List TourStep)
    (s : TourState) (index : Int) (h : index < 0 ∨ (steps.length : Int) ≤ index) :
    showStep env sp steps s index = s := by
  unfold showStep
  rw [if_pos h]

/-- `showStep` with an in-bounds index sets `currentStep` to that index. -/
theorem showStep_currentStep (env : TourEnv) (sp : Bool) (steps : List TourStep)
    (s : TourState) (index : Int) (h0 : 0 ≤ index) (h1 : index < (steps.length : Int)) :
    (showStep env sp steps s index).currentStep = index := by
  have hg : ¬ (index < 0 ∨ (steps.length : Int) ≤ index) := by omega
  unfold showStep
  rw [if_neg hg]
  cases sp <;> simp [highlightElement_currentStep]

/-- Unfolding `runTour` on a `next` action. -/
theorem runTour_next (env : TourEnv) (sp : Bool) (steps : List TourStep)
    (s : TourState) (rest : List TourAction) :
    runTour env sp steps s (TourAction.next :: rest) =
      runTour env sp steps (nextStep env sp steps s).1 rest := rfl

/-- Unfolding `runTour` on a `prev` action. -/
theorem runTour_prev (env : TourEnv) (sp : Bool) (steps : List TourStep)
    (s : TourState) (rest : List TourAction) :
    runTour env sp steps s (TourAction.prev :: rest) =
      runTour env sp steps (previousStep env sp steps s) rest := rfl

/-- One navigation action preserves `0 ≤ currentStep < steps.length`. -/
theorem runTour_bounds (env : TourEnv) (sp : Bool) (steps : List TourStep)
    (s : TourState) (hs0 : 0 ≤ s.currentStep) (hs1 : s.currentStep < (steps.length : Int))
    (acts : List TourAction) :
    0 ≤ (runTour env sp steps s acts).currentStep ∧
      (runTour env sp steps s acts).currentStep < (steps.length : Int) := by
  induction acts generalizing s with
  | nil => exact ⟨hs0, hs1⟩
  | cons a rest ih =>
    cases a with
    | next =>
      rw [runTour_next]
      by_cases h : s.currentStep < (steps.length : Int) - 1
      · have h1 : (nextStep env sp steps s).1 = showStep env sp steps s (s.currentStep + 1) := by
          unfold nextStep; rw [if_pos h]
        rw [h1]
        refine ih _ ?_ ?_
        · rw [showStep_currentStep env sp steps s _ (by omega) (by omega)]; omega
        · rw [showStep_currentStep env sp steps s _ (by omega) (by omega)]; omega
      · have h1 : (nextStep env sp steps s).1 = s := by
          unfold nextStep; rw [if_neg h]
        rw [h1]
        exact ih s hs0 hs1
    | prev =>
      rw [runTour_prev]
      by_cases h : s.currentStep > 0
      · have h1 : previousStep env sp steps s = showStep env sp steps s (s.currentStep - 1) := by
          unfold previousStep; rw [if_pos h]
        rw [h1]
        refine ih _ ?_ ?_
        · rw [showStep_currentStep env sp steps s _ (by omega) (by omega)]; omega
        · rw [showStep_currentStep env sp steps s _ (by omega) (by omega)]; omega
      · have h1 : previousStep env sp steps s = s := by
          unfold previousStep; rw [if_neg h]
        rw [h1]
        exact ih s hs0 hs1

/-- C1: For a tour with a non-empty steps list, `showStep(index)` leaves
`currentStep` unchanged whenever `index < 0` or `index >= steps.length`;
`nextStep` from step `i < steps.length - 1` moves to `i + 1` without
invoking `completeTour`, and from the last step invokes `completeTour`
instead of advancing; `previousStep` from step `i > 0` moves to `i - 1`
and is a no-op at step 0; and after any sequence of next/previous actions
starting from `showStep(0)`, `currentStep` satisfies
`0 ≤ currentStep < steps.length`. -/
theorem C1_tour_step_sequencing (env : TourEnv) (sp : Bool) (steps : List TourStep)
    (s : TourState) (hne : steps ≠ []) :
    (∀ index : Int, index < 0 ∨ (steps.length : Int) ≤ index →
      (showStep env sp steps s index).currentStep = s.currentStep) ∧
    (∀ t : TourState, 0 ≤ t.currentStep → t.currentStep < (steps.length : Int) - 1 →
      (nextStep env sp steps t).1.currentStep = t.currentStep + 1 ∧
      (nextStep env sp steps t).2 = false) ∧
    (∀ t : TourState, t.currentStep = (steps.length : Int) - 1 →
      nextStep env sp steps t = (t, true)) ∧
    (∀ t : TourState, 0 < t.currentStep → t.currentStep < (steps.length : Int) →
      (previousStep env sp steps t).currentStep = t.currentStep - 1) ∧
    (∀ t : TourState, t.currentStep = 0 → previousStep env sp steps t = t) ∧
    (∀ acts : List TourAction,
      0 ≤ (runTour env sp steps (showStep env sp steps s 0) acts).currentStep ∧
      (runTour env sp steps (showStep env sp steps s 0) acts).currentStep <
        (steps.length : Int)) := by
  have hlen : 0 < steps.length := List.length_pos.mpr hne
  refine ⟨?_, ?_, ?_, ?_, ?_, ?_⟩
  · intro index h
    rw [showStep_out_of_bounds env sp steps s index h]
  · intro t h0 h1
    unfold nextStep
    rw [if_pos h1]
    exact ⟨showStep_currentStep env sp steps t _ (by omega) (by omega), rfl⟩
  · intro t h
    unfold nextStep
    rw [if_neg (by omega)]
  · intro t h0 h1
    unfold previousStep
    rw [if_pos h0]
    exact showStep_currentStep env sp steps t _ (by omega) (by omega)
  · intro t h
    unfold previousStep
    rw [if_neg (by omega)]
  · intro acts
    have hlen' : (0 : Int) < (steps.length : Int) := by exact_mod_cast hlen
    refine runTour_bounds env sp steps _ ?_ ?_ acts
    · rw [showStep_currentStep env sp steps s 0 le_rfl hlen']
    · rw [showStep_currentStep env sp steps s 0 le_rfl hlen']
      exact hlen'

/-- Witness for C1: the concrete six-step tour, started at step 0 and
driven through next, next, previous, stays in bounds. -/
theorem C1_tour_step_sequencing_witness :
    0 ≤ (runTour envNone true onboardingSteps
          (showStep envNone true onboardingSteps tourState0 0)
          [TourAction.next, TourAction.next, TourAction.prev]).currentStep ∧
    (runTour envNone true onboardingSteps
          (showStep envNone true onboardingSteps tourState0 0)
          [TourAction.next, TourAction.next, TourAction.prev]).currentStep <
      (onboardingSteps.length : Int) :=
  (C1_tour_step_sequencing envNone true onboardingSteps tourState0
      (by decide)).2.2.2.2.2
    [TourAction.next, TourAction.next, TourAction.prev]

/-- C7: when a step's target selector matches no element, `showStep` still
sets `currentStep` to that index and updates the tooltip title, message,
progress indicator and button states, while `highlightElement` leaves the
spotlight's and the tooltip's position and size unchanged; the tour
neither skips the step nor aborts. -/
theorem C7_missing_target_no_recovery (env : TourEnv) (steps : List TourStep)
    (s : TourState) (index : Int) (step : TourStep)
    (hget : steps[index.toNat]? = some step)
    (h0 : 0 ≤ index) (h1 : index < (steps.length : Int))
    (hmiss : env.query step.target = none) :
    (∀ t : TourState, ∀ sel : String, env.query sel = none →
      highlightElement env t sel = t) ∧
    showStep env true steps s index =
      { s with
        currentStep := index,
        tooltipTitle := step.title,
        tooltipMessage := step.message,
        progressFillPct := (((index : ℚ) + 1) / (steps.length : ℚ)) * 100,
        stepCurrentText := toString (index + 1),
        prevDisabled := index == 0,
        nextLabel := if index == (steps.length : Int) - 1 then "Finish" else "Next" } := by
  constructor
  · intro t sel hsel
    unfold highlightElement
    rw [hsel]
  · have hg : ¬ (index < 0 ∨ (steps.length : Int) ≤ index) := by omega
    unfold showStep
    rw [if_neg hg]
    simp only [List.getD_eq_getElem?_getD, hget, Option.getD_some, if_true]
    unfold highlightElement
    rw [hmiss]

/-- Witness for C7: on the concrete six-step tour in a document where no
selector matches, `showStep 0` still moves to step 0 and updates the
tooltip, and the spotlight rectangle is untouched. -/
theorem C7_missing_target_no_recovery_witness :
    (showStep envNone true onboardingSteps tourState0 0).currentStep = 0 ∧
    (showStep envNone true onboardingSteps tourState0 0).tooltipTitle =
      "Welcome to Evalon!" ∧
    (showStep envNone true onboardingSteps tourState0 0).spotlight =
      tourState0.spotlight := by
  have h := (C7_missing_target_no_recovery envNone onboardingSteps tourState0 0
      (onboardingSteps.getD 0 default) rfl (by decide) (by decide) rfl).2
  rw [h]
  refine ⟨rfl, rfl, rfl⟩

/-- Membership after `classList.add`. -/
theorem mem_classAdd (x c : String) (cs : List String) :
    x ∈ classAdd cs c ↔ x ∈ cs ∨ x = c := by
  unfold classAdd
  by_cases h : c ∈ cs
  · rw [if_pos h]
    constructor
    · exact Or.inl
    · rintro (hx | rfl)
      · exact hx
      · exact h
  · rw [if_neg h]
    simp [List.mem_append]

/-- Membership after `classList.remove`. -/
theorem mem_classRemove (x c : String) (cs : List String) :
    x ∈ classRemove cs c ↔ x ∈ cs ∧ x ≠ c := by
  unfold classRemove
  simp [List.mem_filter, bne_iff_ne]

/-- Pointwise description of the button half of the feature click. -/
theorem featureButtonsAfterClick_getElem? (buttons : List FeatureButton) (i : Nat)
    (hi : i < buttons.length) (j : Nat) :
    (featureButtonsAfterClick buttons i)[j]? =
      (buttons[j]?).map (fun b =>
        if j = i then
          { b with classes := classAdd (classRemove b.classes "is-active") "is-active" }
        else
          { b with classes := classRemove b.classes "is-active" }) := by
  have hlen : (clearActiveButtons buttons).length = buttons.length := by
    unfold clearActiveButtons
    rw [List.length_map]
  have hi' : i < (clearActiveButtons buttons).length := by
    rw [hlen]; exact hi
  have hsc : (clearActiveButtons buttons).get? i =
      some { buttons[i] with classes := classRemove (buttons[i]).classes "is-active" } := by
    unfold clearActiveButtons
    rw [List.get?_eq_getElem?, List.getElem?_map, List.getElem?_eq_getElem hi]
    rfl
  unfold featureButtonsAfterClick
  simp only [hsc]
  by_cases hj : j = i
  · subst hj
    rw [List.getElem?_set_self hi', List.getElem?_eq_getElem hi]
    simp
  · rw [List.getElem?_set_ne (fun h => hj h.symm)]
    unfold clearActiveButtons
    rw [List.getElem?_map]
    cases hb : buttons[j]? <;> simp [hb, hj]

/-- The click handler preserves the number of feature buttons. -/
theorem featureButtonsAfterClick_length (buttons : List FeatureButton) (i : Nat) :
    (featureButtonsAfterClick buttons i).length = buttons.length := by
  unfold featureButtonsAfterClick
  cases h : (clearActiveButtons buttons).get? i <;>
    simp [clearActiveButtons]

/-- C2: after a click on feature button `i` on a page with a non-empty
panel list, button `i` is the only feature button carrying `is-active`, a
panel carries `is-active` exactly when its `data-feature-panel` equals the
clicked button's `data-feature`, and nothing else about the buttons or
panels (their data values, their other classes) changes. -/
theorem C2_feature_accordion_click (buttons : List FeatureButton) (i : Nat)
    (panels : List FeaturePanel) (hi : i < buttons.length) (hp : panels ≠ []) :
    ((featureClick buttons i panels).1.length = buttons.length ∧
     (featureClick buttons i panels).2.length = panels.length) ∧
    (∀ (j : Nat) (b b' : FeatureButton), buttons[j]? = some b →
      (featureClick buttons i panels).1[j]? = some b' →
      (("is-active" ∈ b'.classes ↔ j = i) ∧
       b'.feature = b.feature ∧
       ∀ c : String, c ≠ "is-active" → (c ∈ b'.classes ↔ c ∈ b.classes))) ∧
    (∀ (j : Nat) (p p' : FeaturePanel), panels[j]? = some p →
      (featureClick buttons i panels).2[j]? = some p' →
      (("is-active" ∈ p'.classes ↔
          p.featurePanel = (buttons.getD i default).feature) ∧
       p'.featurePanel = p.featurePanel ∧
       ∀ c : String, c ≠ "is-active" → (c ∈ p'.classes ↔ c ∈ p.classes))) := by
  have hplen : panels.length ≠ 0 := fun h => hp (List.length_eq_zero.mp h)
  have hpanels : (featureClick buttons i panels).2 =
      panels.map (fun p =>
        if p.featurePanel = (buttons.getD i default).feature then
          { p with classes := classAdd p.classes "is-active" }
        else
          { p with classes := classRemove p.classes "is-active" }) := by
    show setActivePanel panels _ = _
    unfold setActivePanel
    rw [if_neg hplen]
  refine ⟨⟨?_, ?_⟩, ?_, ?_⟩
  · exact featureButtonsAfterClick_length buttons i
  · rw [hpanels, List.length_map]
  · intro j b b' hb hb'
    rw [show (featureClick buttons i panels).1 = featureButtonsAfterClick buttons i from rfl,
        featureButtonsAfterClick_getElem? buttons i hi j, hb] at hb'
    simp only [Option.map_some', Option.some.injEq] at hb'
    subst hb'
    by_cases hj : j = i
    · subst hj
      rw [if_pos rfl]
      refine ⟨by simp [mem_classAdd], rfl, ?_⟩
      intro c hc
      simp [mem_classAdd, mem_classRemove, hc]
    · rw [if_neg hj]
      refine ⟨by simp [mem_classRemove, hj], rfl, ?_⟩
      intro c hc
      simp [mem_classRemove, hc]
  · intro j p p' hpj hp'
    rw [hpanels, List.getElem?_map, hpj] at hp'
    simp only [Option.map_some', Option.some.injEq] at hp'
    subst hp'
    by_cases hslug : p.featurePanel = (buttons.getD i default).feature
    · rw [if_pos hslug]
      refine ⟨iff_of_true (by simp [mem_classAdd]) hslug, rfl, ?_⟩
      intro c hc
      simp [mem_classAdd, hc]
    · rw [if_neg hslug]
      refine ⟨iff_of_false (by simp [mem_classRemove]) hslug, rfl, ?_⟩
      intro c hc
      simp [mem_classRemove, hc]

/-- Witness for C2: clicking the second demo button leaves it the only
active button and activates exactly the matching panel. -/
theorem C2_feature_accordion_click_witness :
    (featureClick demoButtons 1 demoPanels).1[1]? =
      some ⟨"beta", ["accordion-item", "is-active"]⟩ ∧
    (featureClick demoButtons 1 demoPanels).2[1]? = some ⟨"beta", ["is-active"]⟩ ∧
    "is-active" ∈ (FeatureButton.mk "beta" ["accordion-item", "is-active"]).classes := by
  refine ⟨by decide, by decide, ?_⟩
  have h := (C2_feature_accordion_click demoButtons 1 demoPanels
      (by decide) (by decide)).2.1
  exact ((h 1 ⟨"beta", ["accordion-item"]⟩ ⟨"beta", ["accordion-item", "is-active"]⟩
      (by decide) (by decide)).1).mpr rfl

/-- Pointwise description of `List.mapIdx`. -/
theorem mapIdx_getElem? {α β : Type} (l : List α) (f : Nat → α → β) (j : Nat) :
    (l.mapIdx f)[j]? = (l[j]?).map (f j) := by
  by_cases hj : j < l.length
  · have hj' : j < (l.mapIdx f).length := by
      rw [List.length_mapIdx]; exact hj
    rw [List.getElem?_eq_getElem hj', List.getElem?_eq_getElem hj]
    simp only [Option.map_some']
    have hg := List.get_mapIdx l f j hj hj'
    simp only [List.get_eq_getElem] at hg
    rw [hg]
  · have hj' : (l.mapIdx f).length ≤ j := by
      rw [List.length_mapIdx]; exact le_of_not_lt hj
    rw [List.getElem?_eq_none hj', List.getElem?_eq_none (le_of_not_lt hj)]
    rfl

/-- `rotateStages` preserves the number of stages. -/
theorem rotateStages_length (s : JourneyState) :
    (rotateStages s).stages.length = s.stages.length := by
  unfold rotateStages
  simp [List.length_mapIdx]

/-- Iterated `rotateStages` preserves the number of stages. -/
theorem rotateStages_iter_length (k : Nat) (s : JourneyState) :
    (rotateStages^[k] s).stages.length = s.stages.length := by
  induction k generalizing s with
  | zero => rfl
  | succ k ih =>
    rw [Function.iterate_succ_apply, ih, rotateStages_length]

/-- Each invocation activates exactly the stage at the current index. -/
theorem rotateStages_stages (s : JourneyState) (j : Nat) :
    (rotateStages s).stages[j]? = (s.stages[j]?).map (fun _ => j == s.stageIndex) := by
  unfold rotateStages
  exact mapIdx_getElem? s.stages _ j

/-- The captured `stageIndex` after `k` invocations. -/
theorem rotateStages_iter_index (k : Nat) (s : JourneyState)
    (h0 : s.stageIndex < s.stages.length) :
    (rotateStages^[k] s).stageIndex = (s.stageIndex + k) % s.stages.length := by
  induction k with
  | zero =>
    simp [Nat.mod_eq_of_lt h0]
  | succ k ih =>
    rw [Function.iterate_succ_apply']
    show ((rotateStages^[k] s).stageIndex + 1) % (rotateStages^[k] s).stages.length =
      (s.stageIndex + (k + 1)) % s.stages.length
    rw [rotateStages_iter_length, ih, Nat.mod_add_mod, Nat.add_assoc]

/-- C3: each `rotateStages` invocation activates exactly the journey stage
at the current index and then advances the index by one modulo the stage
count, so the index stays in `[0, N)`; `N` further invocations after the
first reproduce the stage activation present after the first invocation;
and the testimonial auto-advance timer always passes
`(activeIndex + 1) % buttons.length` to `setTestimonial`. -/
theorem C3_auto_rotation :
    (∀ (u : JourneyState) (j : Nat),
      (rotateStages u).stages[j]? = (u.stages[j]?).map (fun _ => j == u.stageIndex)) ∧
    (∀ u : JourneyState, u.stages ≠ [] →
      (rotateStages u).stageIndex = (u.stageIndex + 1) % u.stages.length ∧
      (rotateStages u).stageIndex < u.stages.length) ∧
    (∀ u : JourneyState, u.stages ≠ [] → u.stageIndex = 0 →
      (rotateStages^[u.stages.length] (rotateStages u)).stages = (rotateStages u).stages) ∧
    (∀ v : TestimonialState,
      testimonialTick v = setTestimonial v ((v.activeIndex + 1) % v.buttons.length)) := by
  have hlenpos : ∀ u : JourneyState, u.stages ≠ [] → 0 < u.stages.length :=
    fun u hu => List.length_pos.mpr hu
  refine ⟨rotateStages_stages, ?_, ?_, fun v => rfl⟩
  · intro u hu
    refine ⟨rfl, ?_⟩
    show (u.stageIndex + 1) % u.stages.length < u.stages.length
    exact Nat.mod_lt _ (hlenpos u hu)
  · intro u hu h0
    have hidx : u.stageIndex < u.stages.length := by
      rw [h0]; exact hlenpos u hu
    have key : rotateStages^[u.stages.length] (rotateStages u) =
        rotateStages (rotateStages^[u.stages.length] u) := by
      rw [← Function.iterate_succ_apply, Function.iterate_succ_apply']
    rw [key]
    have hwidx : (rotateStages^[u.stages.length] u).stageIndex = u.stageIndex := by
      rw [rotateStages_iter_index _ _ hidx, h0, Nat.zero_add, Nat.mod_self]
    have hwlen : (rotateStages^[u.stages.length] u).stages.length = u.stages.length :=
      rotateStages_iter_length _ _
    apply List.ext_getElem?
    intro j
    rw [rotateStages_stages, rotateStages_stages, hwidx]
    by_cases hj : j < u.stages.length
    · rw [List.getElem?_eq_getElem hj, List.getElem?_eq_getElem (by rw [hwlen]; exact hj)]
      rfl
    · rw [List.getElem?_eq_none (le_of_not_lt hj),
        List.getElem?_eq_none (by rw [hwlen]; exact le_of_not_lt hj)]

/-- Witness for C3: a concrete three-stage rotator, after three further
invocations beyond the first, shows the same activation as after the
first. -/
theorem C3_auto_rotation_witness :
    (rotateStages^[3] (rotateStages ⟨[false, false, false], 0⟩)).stages =
      (rotateStages ⟨[false, false, false], 0⟩).stages :=
  C3_auto_rotation.2.2.1 ⟨[false, false, false], 0⟩ (by decide) rfl

/-- C4: the copy-to-clipboard click handler never propagates an error:
with an existing copy target, a successful `writeText` sets the success
label and the pending timeout restores the default label; a throwing
`writeText` is caught, sets the fallback label, and the pending timeout
restores the default label; with no copy target the handler returns
without changing the label. -/
theorem C4_copy_click (labels : CopyLabels) (clip : ClipboardWrite)
    (cur t : String) :
    copyClick labels none clip cur = (cur, cur) ∧
    copyClick labels (some t) ClipboardWrite.succeeds cur =
      (labels.successLabel, labels.defaultLabel) ∧
    copyClick labels (some t) ClipboardWrite.fails cur =
      (labels.fallbackLabel, labels.defaultLabel) := by
  refine ⟨?_, rfl, rfl⟩
  cases clip <;> rfl

/-- A response with `success` set shows the message and hides the form. -/
theorem newsletterTry_success (data : NewsletterResponse) (hs : data.success = true)
    (ui : NewsletterUI) :
    newsletterTry (NewsletterFetch.responds data) ui =
      { showNewsletterMessage ui data.message true with formHidden := true } := by
  simp only [newsletterTry]
  rw [if_pos hs]

/-- C5: the newsletter submit handler shows the empty-email message and
performs no request when the trimmed email is empty; a thrown fetch or
JSON parse is confined to the connection-error message and leaves the
form visible; a response with `success` set shows the returned message
and hides the form; and on every path that performs the request the
submit button ends re-enabled and relabeled `Subscribe`. -/
theorem C5_newsletter_submit (ui : NewsletterUI) :
    (∀ (emailField : Option String) (fr : NewsletterFetch),
      emailField.map String.trim = none ∨ emailField.map String.trim = some "" →
      newsletterSubmit emailField fr ui =
        (showNewsletterMessage ui "Please enter your email address." false, false)) ∧
    (∀ emailField : Option String,
      ¬ (emailField.map String.trim = none ∨ emailField.map String.trim = some "") →
      ((newsletterSubmit emailField NewsletterFetch.connectionError ui).1.messageText =
          "Connection error. Please try again." ∧
        (newsletterSubmit emailField NewsletterFetch.connectionError ui).1.messageShown =
          true ∧
        (newsletterSubmit emailField NewsletterFetch.connectionError ui).1.formHidden =
          ui.formHidden ∧
        (newsletterSubmit emailField NewsletterFetch.connectionError ui).2 = true) ∧
      (∀ data : NewsletterResponse, data.success = true →
        (newsletterSubmit emailField (NewsletterFetch.responds data) ui).1.messageText =
          data.message ∧
        (newsletterSubmit emailField (NewsletterFetch.responds data) ui).1.messageShown =
          true ∧
        (newsletterSubmit emailField (NewsletterFetch.responds data) ui).1.formHidden =
          true ∧
        (newsletterSubmit emailField (NewsletterFetch.responds data) ui).2 = true)) ∧
    (∀ (emailField : Option String) (fr : NewsletterFetch),
      (newsletterSubmit emailField fr ui).2 = true →
      (newsletterSubmit emailField fr ui).1.btnDisabled = false ∧
      (newsletterSubmit emailField fr ui).1.btnLabel = "Subscribe") := by
  refine ⟨?_, ?_, ?_⟩
  · intro e fr h
    unfold newsletterSubmit
    rw [if_pos h]
  · intro e h
    constructor
    · unfold newsletterSubmit
      rw [if_neg h]
      exact ⟨rfl, rfl, rfl, rfl⟩
    · intro data hs
      unfold newsletterSubmit
      rw [if_neg h, newsletterTry_success data hs]
      exact ⟨rfl, rfl, rfl, rfl⟩
  · intro e fr h
    by_cases hg : e.map String.trim = none ∨ e.map String.trim = some ""
    · exfalso
      unfold newsletterSubmit at h
      rw [if_pos hg] at h
      exact Bool.false_ne_true h
    · unfold newsletterSubmit
      rw [if_neg hg]
      exact ⟨rfl, rfl⟩

/-- Witness for C5: an empty email field shows the validation message
and performs no request. -/
theorem C5_newsletter_submit_witness :
    newsletterSubmit none NewsletterFetch.connectionError newsUI0 =
      (showNewsletterMessage newsUI0 "Please enter your email address." false, false) :=
  (C5_newsletter_submit newsUI0).1 none NewsletterFetch.connectionError
    (Or.inl rfl)

/-- `activateClicked` preserves length. -/
theorem activateClicked_length (links : List (List String)) (i : Nat) :
    (activateClicked links i).length = links.length := by
  unfold activateClicked
  cases h : links.get? i <;> simp

/-- `activatePane` preserves length. -/
theorem activatePane_length (panes : List (List String)) (k : Option Nat) :
    (activatePane panes k).length = panes.length := by
  unfold activatePane
  cases k with
  | none => rfl
  | some k => cases h : panes[k]? <;> simp [h]

/-- Pointwise description of `activateClicked` at a valid index. -/
theorem activateClicked_getElem? (links : List (List String)) (i : Nat)
    (hi : i < links.length) (j : Nat) :
    (activateClicked links i)[j]? =
      if j = i then (links[j]?).map (fun cs => classAdd cs "active")
      else links[j]? := by
  have hsc : links.get? i = some links[i] := by
    rw [List.get?_eq_getElem?, List.getElem?_eq_getElem hi]
  unfold activateClicked
  simp only [hsc]
  by_cases hj : j = i
  · subst hj
    rw [if_pos rfl, List.getElem?_set_self hi, List.getElem?_eq_getElem hi]
    rfl
  · rw [if_neg hj, List.getElem?_set_ne (fun hh => hj hh.symm)]

/-- Pointwise description of `activatePane` at a valid matched index. -/
theorem activatePane_getElem? (panes : List (List String)) (k : Nat)
    (hk : k < panes.length) (j : Nat) :
    (activatePane panes (some k))[j]? =
      if j = k then (panes[j]?).map (fun cs => classAdd (classAdd cs "active") "show")
      else panes[j]? := by
  have hsc : panes.get? k = some panes[k] := by
    rw [List.get?_eq_getElem?, List.getElem?_eq_getElem hk]
  unfold activatePane
  simp only [hsc]
  by_cases hj : j = k
  · subst hj
    rw [if_pos rfl, List.getElem?_set_self hk, List.getElem?_eq_getElem hk]
    rfl
  · rw [if_neg hj, List.getElem?_set_ne (fun hh => hj hh.symm)]

/-- C6 (amended): the admin tab click handler is a guarded no-op when the
clicked link's `href` attribute is absent, empty, or equal to `'#'`, or no
`.tab-content` exists (no class or history change) — the JS guard
`!targetId` also fires on the empty string; otherwise it removes `active`
from every `.nav-link` of the enclosing `ul`, removes `active` and `show`
from every pane, gives `active` exactly to the clicked link, gives
`active` and `show` exactly to the pane matched by the `href` (when one
matches), changes no other class, and pushes onto the history. -/
theorem C6_admin_tab_click (d : TabsDom) :
    ((d.href = none ∨ d.href = some "" ∨ d.href = some "#" ∨
        d.hasTabContent = false) →
      adminTabClick d = (d, false)) ∧
    (∀ t : String, d.href = some t → t ≠ "" → t ≠ "#" → d.hasTabContent = true →
      d.clickedIdx < d.ulElems.length →
      (∀ k : Nat, d.hrefTarget = some k → k < d.panes.length) →
      ((adminTabClick d).2 = true ∧
       (adminTabClick d).1.ulElems.length = d.ulElems.length ∧
       (adminTabClick d).1.panes.length = d.panes.length ∧
       (∀ (j : Nat) (cs cs' : List String), d.ulElems[j]? = some cs →
         (adminTabClick d).1.ulElems[j]? = some cs' →
         (("active" ∈ cs' ↔
            (j = d.clickedIdx ∨ ("active" ∈ cs ∧ "nav-link" ∉ cs))) ∧
          ∀ c : String, c ≠ "active" → (c ∈ cs' ↔ c ∈ cs))) ∧
       (∀ (j : Nat) (cs cs' : List String), d.panes[j]? = some cs →
         (adminTabClick d).1.panes[j]? = some cs' →
         (("active" ∈ cs' ↔ d.hrefTarget = some j) ∧
          ("show" ∈ cs' ↔ d.hrefTarget = some j) ∧
          ∀ c : String, c ≠ "active" → c ≠ "show" → (c ∈ cs' ↔ c ∈ cs))))) := by
  constructor
  · intro hguard
    rcases hguard with h | h | h | h
    · simp only [adminTabClick, h]
    · simp only [adminTabClick, h]
      simp
    · simp only [adminTabClick, h]
      simp
    · cases hh : d.href with
      | none => simp only [adminTabClick, hh]
      | some t =>
        simp only [adminTabClick, hh]
        by_cases ht : t = "" ∨ t = "#"
        · rw [if_pos ht]
        · rw [if_neg ht, if_pos (by simp [h])]
  · intro t ht ht1 ht2 htc hclk hpanes
    have hmain : adminTabClick d =
        ({ d with
            ulElems := activateClicked (deactivateNavLinks d.ulElems) d.clickedIdx,
            panes := activatePane (deactivatePanes d.panes) d.hrefTarget }, true) := by
      simp only [adminTabClick, ht]
      rw [if_neg (by rintro (h | h) <;> [exact ht1 h; exact ht2 h]),
        if_neg (by simp [htc])]
    have hdlen : (deactivateNavLinks d.ulElems).length = d.ulElems.length := by
      unfold deactivateNavLinks
      rw [List.length_map]
    have hplen : (deactivatePanes d.panes).length = d.panes.length := by
      unfold deactivatePanes
      rw [List.length_map]
    refine ⟨by rw [hmain], ?_, ?_, ?_, ?_⟩
    · rw [hmain]
      show (activateClicked (deactivateNavLinks d.ulElems) d.clickedIdx).length = _
      rw [activateClicked_length, hdlen]
    · rw [hmain]
      show (activatePane (deactivatePanes d.panes) d.hrefTarget).length = _
      rw [activatePane_length, hplen]
    · intro j cs cs' hcs hcs'
      rw [hmain] at hcs'
      have hclk' : d.clickedIdx < (deactivateNavLinks d.ulElems).length := by
        rw [hdlen]; exact hclk
      have hcs2 : (activateClicked (deactivateNavLinks d.ulElems) d.clickedIdx)[j]? =
          some cs' := hcs'
      rw [activateClicked_getElem? _ _ hclk' j] at hcs2
      have hdj : (deactivateNavLinks d.ulElems)[j]? = some (stripNavActive cs) := by
        unfold deactivateNavLinks
        rw [List.getElem?_map, hcs]
        rfl
      by_cases hj : j = d.clickedIdx
      · rw [if_pos hj, hdj] at hcs2
        simp only [Option.map_some', Option.some.injEq] at hcs2
        subst hcs2
        refine ⟨iff_of_true (by simp [mem_classAdd]) (Or.inl hj), ?_⟩
        intro c hc
        unfold stripNavActive
        by_cases hnav : "nav-link" ∈ cs
        · rw [if_pos hnav]
          simp [mem_classAdd, mem_classRemove, hc]
        · rw [if_neg hnav]
          simp [mem_classAdd, hc]
      · rw [if_neg hj, hdj] at hcs2
        have hcs'' : cs' = stripNavActive cs := by
          injection hcs2 with h
          exact h.symm
        subst hcs''
        unfold stripNavActive
        by_cases hnav : "nav-link" ∈ cs
        · rw [if_pos hnav]
          refine ⟨iff_of_false (by simp [mem_classRemove]) ?_, ?_⟩
          · rintro (h | ⟨_, hnn⟩)
            · exact hj h
            · exact hnn hnav
          · intro c hc
            simp [mem_classRemove, hc]
        · rw [if_neg hnav]
          refine ⟨?_, fun c hc => Iff.rfl⟩
          constructor
          · intro hmem
            exact Or.inr ⟨hmem, hnav⟩
          · rintro (h | ⟨hmem, _⟩)
            · exact absurd h hj
            · exact hmem
    · intro j cs cs' hcs hcs'
      rw [hmain] at hcs'
      have hstrip : (deactivatePanes d.panes)[j]? = some (stripPane cs) := by
        unfold deactivatePanes
        rw [List.getElem?_map, hcs]
        rfl
      have hmem_strip_active : "active" ∉ stripPane cs := by
        unfold stripPane
        simp [mem_classRemove]
      have hmem_strip_show : "show" ∉ stripPane cs := by
        unfold stripPane
        simp [mem_classRemove]
      cases hk : d.hrefTarget with
      | none =>
        have hcs2 : (activatePane (deactivatePanes d.panes) d.hrefTarget)[j]? =
            some cs' := hcs'
        rw [hk] at hcs2
        rw [show activatePane (deactivatePanes d.panes) none =
            deactivatePanes d.panes from rfl, hstrip] at hcs2
        have hcs'' : cs' = stripPane cs := by
          injection hcs2 with h
          exact h.symm
        subst hcs''
        refine ⟨iff_of_false hmem_strip_active (by simp), 
          iff_of_false hmem_strip_show (by simp), ?_⟩
        intro c hca hcsh
        unfold stripPane
        simp [mem_classRemove, hca, hcsh]
      | some k =>
        have hk' : k < (deactivatePanes d.panes).length := by
          rw [hplen]; exact hpanes k hk
        have hcs2 : (activatePane (deactivatePanes d.panes) d.hrefTarget)[j]? =
            some cs' := hcs'
        rw [hk, activatePane_getElem? _ _ hk' j, hstrip] at hcs2
        by_cases hj : j = k
        · rw [if_pos hj] at hcs2
          simp only [Option.map_some', Option.some.injEq] at hcs2
          subst hcs2
          refine ⟨iff_of_true (by simp [mem_classAdd]) (by rw [hj]), 
            iff_of_true (by simp [mem_classAdd]) (by rw [hj]), ?_⟩
          intro c hca hcsh
          unfold stripPane
          simp [mem_classAdd, mem_classRemove, hca, hcsh]
        · rw [if_neg hj] at hcs2
          have hcs'' : cs' = stripPane cs := by
            injection hcs2 with h
            exact h.symm
          subst hcs''
          have hne : ¬ ((some k : Option Nat) = some j) := by
            intro hh
            injection hh with hh
            exact hj hh.symm
          refine ⟨iff_of_false hmem_strip_active hne, 
            iff_of_false hmem_strip_show hne, ?_⟩
          intro c hca hcsh
          unfold stripPane
          simp [mem_classRemove, hca, hcsh]

/-- Witness for C6: clicking the second demo tab link activates it and its
pane and deactivates the others. -/
theorem C6_admin_tab_click_witness :
    (adminTabClick tabsFixture).2 = true ∧
    (adminTabClick tabsFixture).1.ulElems.length = 2 := by
  have h := (C6_admin_tab_click tabsFixture).2 "#tab-two" rfl (by decide)
    (by decide) rfl (by decide) (by decide)
  exact ⟨h.1, h.2.1⟩

/-- Counterexample to C6 as stated: with a present-but-empty `href`
attribute — which is neither absent nor `'#'`, with `.tab-content`
present — the handler's `!targetId` guard makes it a complete no-op: no
class changes and no `history.pushState`, contradicting the claim's
"otherwise" branch at this input. -/
theorem C6_admin_tab_click_counterexample :
    tabsEmptyHref.href = some "" ∧
    tabsEmptyHref.href ≠ none ∧
    tabsEmptyHref.href ≠ some "#" ∧
    tabsEmptyHref.hasTabContent = true ∧
    adminTabClick tabsEmptyHref = (tabsEmptyHref, false) ∧
    ¬ ((adminTabClick tabsEmptyHref).2 = true ∧
       "active" ∈ ((adminTabClick tabsEmptyHref).1.ulElems.getD 1 [])) := by
  refine ⟨rfl, by decide, by decide, rfl, rfl, ?_⟩
  rintro ⟨h, _⟩
  exact Bool.false_ne_true (by exact h)

/-- C8: `buildTourSteps` never mutates `onboardingSteps` (the embedding
operates on the spread copy only); with `canUseAI` and a non-viewer role
the result is `onboardingSteps` with the AI Screening step inserted at
position 4, right after the Jobs & Positions step at position 3, giving 7
steps instead of 6; for the `viewer` role the result contains neither the
Jobs & Positions step nor the AI Screening step and is the same 5-step
list whether `canUseAI` is true or false. -/
theorem C8_buildTourSteps (userRole : String) :
    onboardingSteps.length = 6 ∧
    (userRole ≠ "viewer" →
      buildTourSteps userRole true =
        onboardingSteps.take 4 ++ [aiScreeningStep] ++ onboardingSteps.drop 4 ∧
      (buildTourSteps userRole true).length = 7 ∧
      (buildTourSteps userRole true)[4]? = some aiScreeningStep ∧
      ((buildTourSteps userRole true)[3]?).map TourStep.title =
        some "Jobs & Positions" ∧
      buildTourSteps userRole false = onboardingSteps) ∧
    (∀ c : Bool, ∀ step ∈ buildTourSteps "viewer" c,
      step.title ≠ "Jobs & Positions" ∧ step.title ≠ "AI Screening") ∧
    ((buildTourSteps "viewer" true).length = 5 ∧
     buildTourSteps "viewer" true = buildTourSteps "viewer" false) := by
  refine ⟨rfl, ?_, ?_, ?_⟩
  · intro h
    have h1 : buildTourSteps userRole true =
        onboardingSteps.take 4 ++ [aiScreeningStep] ++ onboardingSteps.drop 4 := by
      unfold buildTourSteps
      rw [if_neg h]
      rfl
    have h0 : buildTourSteps userRole false = onboardingSteps := by
      unfold buildTourSteps
      rw [if_neg h]
      rfl
    refine ⟨h1, ?_, ?_, ?_, h0⟩
    · rw [h1]; rfl
    · rw [h1]; rfl
    · rw [h1]; rfl
  · intro c
    cases c <;> decide
  · exact ⟨by decide, by decide⟩

/-- Witness for C8: a non-viewer role with AI gets 7 steps, a viewer gets
5. -/
theorem C8_buildTourSteps_witness :
    (buildTourSteps "admin" true).length = 7 ∧
    (buildTourSteps "viewer" true).length = 5 :=
  ⟨((C8_buildTourSteps "admin").2.1 (by decide)).2.1,
   (C8_buildTourSteps "admin").2.2.2.1⟩

/-- `find?` locates the first notification with the clicked id. -/
theorem find?_notif_eq_some (ns : List JsNotification) (i : Int) (k : Nat)
    (n₀ : JsNotification) (hk : ns[k]? = some n₀) (hid : n₀.id = i)
    (hbefore : ∀ m ∈ ns.take k, m.id ≠ i) :
    ns.find? (fun n => n.id == i) = some n₀ := by
  induction ns generalizing k with
  | nil => simp at hk
  | cons n rest ih =>
    cases k with
    | zero =>
      have hn : n = n₀ := by simpa using hk
      subst hn
      rw [List.find?_cons_of_pos _ (by simp [hid])]
    | succ k =>
      have hne : n.id ≠ i := hbefore n (by simp [List.take_succ_cons])
      rw [List.find?_cons_of_neg _ (by simp [hne])]
      exact ih k (by simpa using hk)
        (fun m hm => hbefore m (by simp [List.take_succ_cons]; exact Or.inr hm))

/-- Marking the clicked notification read changes exactly the first
notification whose id matches. -/
theorem markFirstRead_eq_set (ns : List JsNotification) (i : Int) (k : Nat)
    (n₀ : JsNotification) (hk : ns[k]? = some n₀) (hid : n₀.id = i)
    (hbefore : ∀ m ∈ ns.take k, m.id ≠ i) :
    markFirstRead ns i = ns.set k { n₀ with unread := false } := by
  induction ns generalizing k with
  | nil => simp at hk
  | cons n rest ih =>
    cases k with
    | zero =>
      have hn : n = n₀ := by simpa using hk
      subst hn
      unfold markFirstRead
      rw [if_pos (by simp [hid])]
      rfl
    | succ k =>
      have hne : n.id ≠ i := hbefore n (by simp [List.take_succ_cons])
      unfold markFirstRead
      rw [if_neg (by simp [hne]), List.set_cons_succ,
        ih k (by simpa using hk)
          (fun m hm => hbefore m (by simp [List.take_succ_cons]; exact Or.inr hm))]

/-- After mark-all-read no notification is unread. -/
theorem filter_unread_allRead (ns : List JsNotification) :
    (ns.map (fun n => { n with unread := false })).filter (fun n => n.unread) = [] := by
  induction ns with
  | nil => rfl
  | cons n rest ih =>
    simp only [List.map_cons, List.filter_cons]
    exact ih

/-- C9: `updateBadgeCount` shows the badge exactly when the unread count
is positive and then displays that count; the notification-item click
marks read exactly the first notification with the clicked id and
refreshes the badge from the updated list; mark-all-read marks every
notification read, after which the badge is hidden. -/
theorem C9_notification_badge (ns : List JsNotification) (ui : NotifUI) :
    ((updateBadgeCount ns ui).badgeVisible ↔
      0 < (ns.filter (fun n => n.unread)).length) ∧
    (0 < (ns.filter (fun n => n.unread)).length →
      (updateBadgeCount ns ui).badgeText =
        toString (ns.filter (fun n => n.unread)).length) ∧
    (∀ (i : Int) (k : Nat) (n₀ : JsNotification),
      ns[k]? = some n₀ → n₀.id = i → (∀ m ∈ ns.take k, m.id ≠ i) →
      (notifItemClick ns ui i).1 = ns.set k { n₀ with unread := false } ∧
      (notifItemClick ns ui i).2 =
        updateBadgeCount (ns.set k { n₀ with unread := false }) ui) ∧
    ((∀ n ∈ (markAllReadClick ns ui).1, n.unread = false) ∧
     (markAllReadClick ns ui).2.badgeVisible = false) := by
  refine ⟨?_, ?_, ?_, ?_, ?_⟩
  · unfold updateBadgeCount
    by_cases h : 0 < (ns.filter (fun n => n.unread)).length
    · rw [if_pos h]
      exact iff_of_true rfl h
    · rw [if_neg h]
      exact iff_of_false (by simp) h
  · intro h
    unfold updateBadgeCount
    rw [if_pos h]
  · intro i k n₀ hk hid hbefore
    have hfind := find?_notif_eq_some ns i k n₀ hk hid hbefore
    have hmark := markFirstRead_eq_set ns i k n₀ hk hid hbefore
    unfold notifItemClick
    rw [hfind, hmark]
    exact ⟨rfl, rfl⟩
  · intro n hn
    unfold markAllReadClick at hn
    simp only [List.mem_map] at hn
    obtain ⟨m, _, rfl⟩ := hn
    rfl
  · show (updateBadgeCount (ns.map (fun n => { n with unread := false })) ui).badgeVisible =
      false
    unfold updateBadgeCount
    rw [filter_unread_allRead ns]
    rfl

/-- Witness for C9: on the three mock notifications the badge shows 2,
drops to 1 after clicking notification 1, and hides after mark-all-read. -/
theorem C9_notification_badge_witness :
    (updateBadgeCount notifsFixture notifUI0).badgeText = "2" ∧
    (notifItemClick notifsFixture notifUI0 1).2.badgeText = "1" ∧
    (markAllReadClick notifsFixture notifUI0).2.badgeVisible = false := by
  have h := C9_notification_badge notifsFixture notifUI0
  refine ⟨?_, ?_, h.2.2.2.2⟩
  · rw [h.2.1 (by decide)]
    rfl
  · have hclick := h.2.2.1 1 0
      ⟨1, "Assessment Completed",
        "John Doe completed the Digital Marketing Assessment",
        "5 minutes ago", true, "/clients/dashboard/assessments/marketing/"⟩
      rfl rfl (by simp)
    rw [hclick.2]
    have h2 := (C9_notification_badge
      (notifsFixture.set 0
        ⟨1, "Assessment Completed",
          "John Doe completed the Digital Marketing Assessment",
          "5 minutes ago", false, "/clients/dashboard/assessments/marketing/"⟩)
      notifUI0).2.1 (by decide)
    rw [h2]
    rfl

/-- The cookie loop is first-match-wins: it equals `find?` over the
prefix test followed by decoding the matched entry's value. -/
theorem getCookieLoop_eq (decode : String → String) (name : String)
    (l : List String) :
    getCookieLoop decode name l =
      (l.find? (fun c => c.trim.take (name ++ "=").length == name ++ "=")).map
        (fun c => decode (c.trim.drop (name ++ "=").length)) := by
  have hlen : (name ++ "=").length = name.length + 1 := by
    rw [String.length_append]
    rfl
  induction l with
  | nil => rfl
  | cons c rest ih =>
    simp only [getCookieLoop]
    by_cases hc : (c.trim).take (name.length + 1) = name ++ "="
    · rw [if_pos hc, List.find?_cons_of_pos _ (by rw [hlen]; exact beq_iff_eq.mpr hc)]
      simp only [Option.map_some']
      rw [hlen]
    · rw [if_neg hc, List.find?_cons_of_neg _ (by rw [hlen]; simp [hc]), ih]

/-- C10: `getCookie(name)` returns the URI-decoded value of the first
`';'`-separated entry of `document.cookie` whose trimmed text begins with
`name` followed by `'='` (later entries are never inspected: the loop is
`find?`, first match wins), and `none` when `document.cookie` is empty or
no entry has that prefix. -/
theorem C10_getCookie_spec (decode : String → String) (documentCookie name : String) :
    getCookie decode documentCookie name =
      getCookieSpec decode documentCookie name := by
  unfold getCookie getCookieSpec
  by_cases h : documentCookie = ""
  · rw [if_neg (by simp [h]), if_pos h]
  · rw [if_pos h, if_neg h]
    exact getCookieLoop_eq decode name (documentCookie.splitOn ";")
